import Mathlib

/-!
Shallow embedding of `python-backend/server.py` (FastAPI transport layer of the
AI proctoring service).

Modelling conventions:
* A decoded pixel array is opaque to the transport layer, which never inspects
  it; frames are modelled as `Nat`.
* Python exceptions are modelled with `Except PyExc`; `PyExc.httpExc` models
  `fastapi.HTTPException` (which is a subclass of `Exception` and is therefore
  caught by `except Exception` blocks), `PyExc.other` models any other raised
  exception. `pyStr` models `str(e)`.
* Frame decoding (`base64.b64decode` + `cv2.imdecode`) is external; its outcome
  is an input of each handler: `Except PyExc (Option Frame)` — an exception
  during decoding, or `none` when `cv2.imdecode` returns `None`, or a frame.
* `ProctoringService` lives in `proctoring_service.py`, a separate module; the
  transport treats it as a black box. Its `process_frame` is modelled as an
  arbitrary function (`ProcSvc`) from frame, session id and baseline to a
  result-or-exception together with the updated session state store; its
  `calibrate_head_pose` and `check_environment` are likewise oracles.
* The session state store is the service's mapping from session id to mutable
  per-session state; the payload is opaque to the transport and modelled as
  `Nat`.
-/

/-- A decoded pixel array; opaque to the transport layer. -/
abbrev Frame := Nat

/-- A Python exception: either a `fastapi.HTTPException` with status code and
detail, or any other exception carrying its message. -/
inductive PyExc where
  | httpExc (status_code : Nat) (detail : String)
  | other (msg : String)
deriving DecidableEq

/-- Models Python `str(e)`: Starlette's `HTTPException.__str__` renders
`"{status_code}: {detail}"`; other exceptions render their message. -/
def pyStr : PyExc → String
  | PyExc.httpExc s d => toString s ++ ": " ++ d
  | PyExc.other m => m

/-- The error response produced by FastAPI for a raised `HTTPException` that
escapes the endpoint body. -/
structure HTTPErrorResponse where
  status_code : Nat
  detail : String
deriving DecidableEq

/-- One violation dict in the list returned by
`ProctoringService.process_frame` (keys `type`, `severity`, `message` and
optional `confidence`). -/
structure RawViolation where
  vtype : String
  severity : String
  message : String
  confidence : Option Rat
deriving DecidableEq

/-- A head pose as a (pitch, yaw) pair. -/
structure HeadPose where
  pitch : Rat
  yaw : Rat
deriving DecidableEq

/-- The result dict of `ProctoringService.process_frame`. -/
structure ClassifierResult where
  violations : List RawViolation
  head_pose : Option HeadPose
  face_count : Nat
  looking_away : Bool
  multiple_faces : Bool
  no_person : Bool
  phone_detected : Bool
  book_detected : Bool
  snapshot_base64 : Option String
deriving DecidableEq

/-- The session state store of the proctoring service: a mapping from session
id to that session's mutable state; the per-session payload is opaque to the
transport layer and modelled as `Nat`. -/
abbrev SessionStore := List (String × Nat)

/-- The signature of `ProctoringService.process_frame` as seen from the
transport: frame, session id, calibrated pitch, calibrated yaw, and the current
session state store; returns the classifier result (or a raised exception) and
the updated store. -/
abbrev ProcSvc :=
  Frame → String → Rat → Rat → SessionStore → Except PyExc ClassifierResult × SessionStore

/-- Pydantic model `ViolationDetail` (field `type` is rendered as `vtype`). -/
structure ViolationDetail where
  vtype : String
  severity : String
  message : String
  confidence : Option Rat
deriving DecidableEq

/-- Pydantic model `FrameProcessResponse`. -/
structure FrameProcessResponse where
  timestamp : String
  violations : List ViolationDetail
  head_pose : Option HeadPose
  face_count : Nat
  looking_away : Bool
  multiple_faces : Bool
  no_person : Bool
  phone_detected : Bool
  book_detected : Bool
  snapshot_base64 : Option String
deriving DecidableEq

/-- Pydantic model `FrameProcessRequest`, with the frame field replaced by the
outcome of decoding it. -/
structure FrameProcessRequest where
  frame_decoded : Except PyExc (Option Frame)
  session_id : String
  calibrated_pitch : Rat
  calibrated_yaw : Rat

/-- The `ViolationDetail(...)` conversion in the `process_frame` endpoint. -/
def mkViolationDetail (v : RawViolation) : ViolationDetail :=
  { vtype := v.vtype
    severity := v.severity
    message := v.message
    confidence := v.confidence }

/-- Construction of the `FrameProcessResponse` from the classifier result
(lines 173–184 of `server.py`); `now` models `datetime.utcnow().isoformat()`. -/
def mkFrameProcessResponse (now : String) (result : ClassifierResult) : FrameProcessResponse :=
  { timestamp := now
    violations := result.violations.map mkViolationDetail
    head_pose := result.head_pose
    face_count := result.face_count
    looking_away := result.looking_away
    multiple_faces := result.multiple_faces
    no_person := result.no_person
    phone_detected := result.phone_detected
    book_detected := result.book_detected
    snapshot_base64 := result.snapshot_base64 }

/-- Body of the `try:` block of the `/process-frame` endpoint: decode failure
raises `HTTPException(400, "Invalid frame data")`; otherwise the proctoring
service is invoked and its result converted to the response model. -/
def process_frame_body (svc : ProcSvc) (now : String) (req : FrameProcessRequest)
    (store : SessionStore) : Except PyExc FrameProcessResponse × SessionStore :=
  match req.frame_decoded with
  | Except.error e => (Except.error e, store)
  | Except.ok none => (Except.error (PyExc.httpExc 400 "Invalid frame data"), store)
  | Except.ok (some frame) =>
    match svc frame req.session_id req.calibrated_pitch req.calibrated_yaw store with
    | (Except.error e, store₁) => (Except.error e, store₁)
    | (Except.ok result, store₁) => (Except.ok (mkFrameProcessResponse now result), store₁)

/-- The `/process-frame` endpoint: its `except Exception as e:` catches every
exception from the body — including the `HTTPException(400, ...)` raised for an
undecodable frame — and re-raises `HTTPException(500, str(e))`. -/
def process_frame (svc : ProcSvc) (now : String) (req : FrameProcessRequest)
    (store : SessionStore) : Except HTTPErrorResponse FrameProcessResponse × SessionStore :=
  match process_frame_body svc now req store with
  | (Except.ok r, store₁) => (Except.ok r, store₁)
  | (Except.error e, store₁) =>
    (Except.error { status_code := 500, detail := pyStr e }, store₁)

/-- The result dict of `ProctoringService.calibrate_head_pose`: `success` with
pitch and yaw, or failure with an optional `message` key. -/
inductive CalibSvcResult where
  | success (pitch yaw : Rat)
  | failure (message : Option String)
deriving DecidableEq

/-- Pydantic model `CalibrationResponse`. -/
structure CalibrationResponse where
  success : Bool
  pitch : Option Rat
  yaw : Option Rat
  message : String
deriving DecidableEq

/-- The `/calibrate` endpoint (lines 76–105 of `server.py`): decode failure
returns `success=False, "Invalid frame data"`; a raised exception is caught and
returned as `success=False, str(e)`; a successful calibration result is
reproduced as `success=True` with its pitch and yaw. -/
def calibrate (calibSvc : Frame → Except PyExc CalibSvcResult)
    (frame_decoded : Except PyExc (Option Frame)) : CalibrationResponse :=
  match frame_decoded with
  | Except.error e =>
    { success := false, pitch := none, yaw := none, message := pyStr e }
  | Except.ok none =>
    { success := false, pitch := none, yaw := none, message := "Invalid frame data" }
  | Except.ok (some f) =>
    match calibSvc f with
    | Except.error e =>
      { success := false, pitch := none, yaw := none, message := pyStr e }
    | Except.ok (CalibSvcResult.success p y) =>
      { success := true, pitch := some p, yaw := some y, message := "Calibration successful" }
    | Except.ok (CalibSvcResult.failure m) =>
      { success := false, pitch := none, yaw := none, message := m.getD "Calibration failed" }

/-- The result dict of `ProctoringService.check_environment`. -/
structure EnvSvcResult where
  lighting_ok : Bool
  face_detected : Bool
  face_centered : Bool
  message : String
deriving DecidableEq

/-- Pydantic model `EnvironmentCheck`. -/
structure EnvironmentCheck where
  lighting_ok : Bool
  face_detected : Bool
  face_centered : Bool
  message : String
deriving DecidableEq

/-- The `/environment-check` endpoint (lines 107–140 of `server.py`): decode
failure and any raised exception both return an `EnvironmentCheck` with all
three booleans false; otherwise the service result's fields are reproduced.
The endpoint never produces an error response. -/
def check_environment (envSvc : Frame → Except PyExc EnvSvcResult)
    (frame_decoded : Except PyExc (Option Frame)) : EnvironmentCheck :=
  match frame_decoded with
  | Except.error e =>
    { lighting_ok := false, face_detected := false, face_centered := false, message := pyStr e }
  | Except.ok none =>
    { lighting_ok := false, face_detected := false, face_centered := false
      message := "Invalid frame data" }
  | Except.ok (some f) =>
    match envSvc f with
    | Except.error e =>
      { lighting_ok := false, face_detected := false, face_centered := false, message := pyStr e }
    | Except.ok r =>
      { lighting_ok := r.lighting_ok, face_detected := r.face_detected
        face_centered := r.face_centered, message := r.message }

/-- Modelled from the spec: `ProctoringService.check_environment` is in
`proctoring_service.py`, which is not under `src/`. Per §4.3 of the spec, the
environment readiness module compares mean luminance against a configured
minimum, reports face presence from the perception adapter, and reports
centering of the detected face; absence of a face simply yields
`face_detected = false`. -/
def specCheckEnvironment (meanLuminance minLuminance : Rat) (faces : Nat)
    (centered : Bool) : EnvSvcResult :=
  { lighting_ok := decide (minLuminance ≤ meanLuminance)
    face_detected := faces != 0
    face_centered := faces != 0 && centered
    message := if faces == 0 then "No face detected" else "Environment checked" }

/-- One JSON message received on the `/ws/proctoring/{session_id}` channel.
`frame` carries the outcome of decoding its `frame` field and the optional
`calibrated_pitch` / `calibrated_yaw` fields; `audio` carries the optional
`audio_level` field; `malformed` models a message whose handling raises an
exception before reaching the dispatch (bad JSON, missing `type` key, or a
`base64` decoding error). -/
inductive WsMessage where
  | frame (frame_decoded : Option Frame) (calibrated_pitch calibrated_yaw : Option Rat)
  | audio (audio_level : Option Rat)
  | ping
  | malformed (e : PyExc)
deriving DecidableEq

/-- One JSON message sent back on the websocket: a `detection_result` wrapping
the classifier result, a `violation` with its `type`, `severity` and `message`
fields, or a `pong`. -/
inductive WsOut where
  | detection_result (result : ClassifierResult)
  | violation (vtype severity message : String)
  | pong
deriving DecidableEq

/-- The `excessive_noise` violation message sent by the audio branch
(lines 226–234 of `server.py`). -/
def noiseEvent : WsOut :=
  WsOut.violation "excessive_noise" "medium" "Excessive background noise detected"

/-- Handling of one received websocket message (the body of the `while True:`
loop, lines 199–237 of `server.py`): a `frame` message with a decodable frame
invokes the proctoring service with baseline defaults `0.0` for missing
calibration fields and sends back a `detection_result`; an undecodable frame
is skipped silently; an `audio` message with level above 50 sends an
`excessive_noise` violation; `ping` answers `pong`. An exception is returned
as `Except.error` together with the store at the point of the raise. -/
def wsHandleMessage (svc : ProcSvc) (session_id : String) (msg : WsMessage)
    (store : SessionStore) : Except PyExc (List WsOut) × SessionStore :=
  match msg with
  | WsMessage.malformed e => (Except.error e, store)
  | WsMessage.frame none _ _ => (Except.ok [], store)
  | WsMessage.frame (some f) p y =>
    match svc f session_id (p.getD 0) (y.getD 0) store with
    | (Except.error e, store₁) => (Except.error e, store₁)
    | (Except.ok r, store₁) => (Except.ok [WsOut.detection_result r], store₁)
  | WsMessage.audio lvl =>
    if lvl.getD 0 > 50 then (Except.ok [noiseEvent], store)
    else (Except.ok [], store)
  | WsMessage.ping => (Except.ok [WsOut.pong], store)

/-- The receive loop of `websocket_proctoring`: messages are handled in order;
the first exception escapes the `while True:` loop (the single `try/except`
wraps the whole loop, so the remaining messages are never processed), and the
end of the list models a client disconnect (`WebSocketDisconnect`). Returns
the messages sent and the final session state store. -/
def wsRun (svc : ProcSvc) (session_id : String) :
    List WsMessage → SessionStore → List WsOut × SessionStore
  | [], store => ([], store)
  | m :: rest, store =>
    match wsHandleMessage svc session_id m store with
    | (Except.error _, store₁) => ([], store₁)
    | (Except.ok outs, store₁) =>
      let r := wsRun svc session_id rest store₁
      (outs ++ r.1, r.2)

/-- True when no message of the run raises an exception. -/
def wsRunOk (svc : ProcSvc) (session_id : String) :
    List WsMessage → SessionStore → Bool
  | [], _ => true
  | m :: rest, store =>
    match wsHandleMessage svc session_id m store with
    | (Except.error _, _) => false
    | (Except.ok _, store₁) => wsRunOk svc session_id rest store₁

/-- Process-wide server state: the `active_connections` map (modelled as the
set of session ids holding a websocket) and the proctoring service's session
state store. -/
structure ServerState where
  active_connections : List String
  store : SessionStore
deriving DecidableEq

/-- The `/ws/proctoring/{session_id}` endpoint (lines 189–246 of `server.py`):
accepts the connection and records it in `active_connections`, runs the
receive loop, and on disconnect or error deletes the session's entry from
`active_connections` — and nothing else: the session state store is left
exactly as the loop left it. -/
def websocket_proctoring (svc : ProcSvc) (session_id : String) (msgs : List WsMessage)
    (s : ServerState) : List WsOut × ServerState :=
  let conns :=
    if session_id ∈ s.active_connections then s.active_connections
    else session_id :: s.active_connections
  let r := wsRun svc session_id msgs s.store
  let conns₁ := if session_id ∈ conns then conns.erase session_id else conns
  (r.1, { active_connections := conns₁, store := r.2 })

/-- A canonical benign classifier result, for concrete runs. -/
def defaultResult : ClassifierResult :=
  { violations := []
    head_pose := none
    face_count := 1
    looking_away := false
    multiple_faces := false
    no_person := false
    phone_detected := false
    book_detected := false
    snapshot_base64 := none }

/-- Modelled from the spec: `ProctoringService.process_frame` is in
`proctoring_service.py`, which is not under `src/`. Per §3 of the spec a
session's entry in the session state store is created lazily on the first
frame referencing its id and mutated only for that id; the opaque per-session
payload is modelled as a processed-frame counter. The perception outcome is
irrelevant to the transport-level claims and fixed to `defaultResult`. -/
def svcCreate : ProcSvc := fun _f sid _p _y store =>
  (Except.ok defaultResult, (sid, (store.lookup sid).getD 0 + 1) :: store)

example :
    wsRun svcCreate "A" [WsMessage.frame (some 7) none none] [] =
      ([WsOut.detection_result defaultResult], [("A", 1)]) := by decide

example :
    wsRun svcCreate "A" [WsMessage.audio (some 80), WsMessage.audio (some 80)] [] =
      ([noiseEvent, noiseEvent], []) := by decide

example :
    websocket_proctoring svcCreate "A" [WsMessage.frame (some 7) none none] ⟨[], []⟩ =
      ([WsOut.detection_result defaultResult], ⟨[], [("A", 1)]⟩) := by decide

/-- C5: whenever the frame decodes and the calibration module reports success
with head-pose values (pitch, yaw), the `/calibrate` endpoint returns
`success = true` with exactly those pitch and yaw values and the message
`"Calibration successful"`. -/
theorem calibrate_reproduces_pose :
    ∀ (calibSvc : Frame → Except PyExc CalibSvcResult) (d : Except PyExc (Option Frame))
      (f : Frame) (p y : Rat),
      d = Except.ok (some f) →
      calibSvc f = Except.ok (CalibSvcResult.success p y) →
      calibrate calibSvc d =
        { success := true, pitch := some p, yaw := some y, message := "Calibration successful" } := by
  intro calibSvc d f p y hd hc
  subst hd
  simp [calibrate, hc]

/-- Witness for C5 at a concrete calibration oracle and frame. -/
theorem calibrate_reproduces_pose_witness :
    calibrate (fun _ => Except.ok (CalibSvcResult.success 3 5)) (Except.ok (some 0)) =
      { success := true, pitch := some 3, yaw := some 5, message := "Calibration successful" } :=
  calibrate_reproduces_pose _ _ 0 3 5 rfl rfl

/-- C6: an audio message whose level strictly exceeds 50 emits exactly one
`excessive_noise` violation of medium severity; a level at or below 50, or a
missing `audio_level` field (defaulting to 0), emits nothing. In both cases
the session state store is untouched. -/
theorem audio_level_threshold_policy :
    ∀ (svc : ProcSvc) (sid : String) (lvl : Rat) (store : SessionStore),
      (50 < lvl →
        wsHandleMessage svc sid (WsMessage.audio (some lvl)) store =
          (Except.ok [noiseEvent], store)) ∧
      (lvl ≤ 50 →
        wsHandleMessage svc sid (WsMessage.audio (some lvl)) store =
          (Except.ok [], store)) ∧
      wsHandleMessage svc sid (WsMessage.audio none) store = (Except.ok [], store) := by
  intro svc sid lvl store
  refine ⟨fun h => ?_, fun h => ?_, ?_⟩
  · simp [wsHandleMessage, h]
  · simp [wsHandleMessage, not_lt.mpr h]
  · simp [wsHandleMessage]

/-- Witness for C6 at levels 80 (event emitted) and 30 (no event). -/
theorem audio_level_threshold_policy_witness :
    wsHandleMessage svcCreate "A" (WsMessage.audio (some 80)) [] = (Except.ok [noiseEvent], []) ∧
    wsHandleMessage svcCreate "A" (WsMessage.audio (some 30)) [] = (Except.ok [], []) :=
  ⟨(audio_level_threshold_policy svcCreate "A" 80 []).1 (by norm_num),
   (audio_level_threshold_policy svcCreate "A" 30 []).2.1 (by norm_num)⟩

/-- C7: the `/environment-check` endpoint never fails with an error: in every
case — a decode exception, an undecodable frame, an exception raised by the
readiness evaluation, or a normal result — it returns a structured
`EnvironmentCheck` with the three booleans and a message, with decode failure
yielding `face_detected = false`; and, per the spec-modelled readiness module,
a frame with zero detected faces also yields `face_detected = false`. -/
theorem check_environment_never_errors :
    ∀ (envSvc : Frame → Except PyExc EnvSvcResult) (d : Except PyExc (Option Frame)),
      (∀ e, d = Except.error e →
        check_environment envSvc d = ⟨false, false, false, pyStr e⟩) ∧
      (d = Except.ok none →
        check_environment envSvc d = ⟨false, false, false, "Invalid frame data"⟩) ∧
      (∀ f e, d = Except.ok (some f) → envSvc f = Except.error e →
        check_environment envSvc d = ⟨false, false, false, pyStr e⟩) ∧
      (∀ f r, d = Except.ok (some f) → envSvc f = Except.ok r →
        check_environment envSvc d =
          ⟨r.lighting_ok, r.face_detected, r.face_centered, r.message⟩) ∧
      (∀ lum minLum c, (specCheckEnvironment lum minLum 0 c).face_detected = false) := by
  intro envSvc d
  refine ⟨fun e hd => ?_, fun hd => ?_, fun f e hd he => ?_, fun f r hd hr => ?_,
    fun lum minLum c => ?_⟩
  · subst hd; simp [check_environment]
  · subst hd; simp [check_environment]
  · subst hd; simp [check_environment, he]
  · subst hd; simp [check_environment, hr]
  · simp [specCheckEnvironment]

/-- Witness for C7: an undecodable frame yields the all-false structured
result. -/
theorem check_environment_never_errors_witness :
    check_environment (fun _ => Except.ok ⟨true, true, true, "ok"⟩) (Except.ok none) =
      ⟨false, false, false, "Invalid frame data"⟩ :=
  (check_environment_never_errors _ _).2.1 rfl

/-- C9: on the `/process-frame` endpoint, the decode-failure
`HTTPException(400)` never reaches the caller: it is caught by the catch-all
handler and re-raised, so an undecodable frame surfaces as status 500 with
detail `"400: Invalid frame data"`, and every error response of the endpoint
has status 500. -/
theorem process_frame_all_errors_500 :
    ∀ (svc : ProcSvc) (now : String) (req : FrameProcessRequest) (store : SessionStore),
      (req.frame_decoded = Except.ok none →
        (process_frame svc now req store).1 =
          Except.error ⟨500, "400: Invalid frame data"⟩) ∧
      (∀ e, (process_frame svc now req store).1 = Except.error e → e.status_code = 500) := by
  intro svc now req store
  constructor
  · intro h
    simp [process_frame, process_frame_body, h, pyStr]
    rfl
  · intro e he
    unfold process_frame at he
    rcases hb : process_frame_body svc now req store with ⟨r | ex, store₁⟩ <;>
      rw [hb] at he <;> simp at he
    subst he
    rfl

/-- Witness for C9 at a concrete undecodable request. -/
theorem process_frame_all_errors_500_witness :
    (process_frame svcCreate "t0" ⟨Except.ok none, "A", 0, 0⟩ []).1 =
      Except.error ⟨500, "400: Invalid frame data"⟩ ∧
    HTTPErrorResponse.status_code ⟨500, "400: Invalid frame data"⟩ = 500 :=
  ⟨(process_frame_all_errors_500 svcCreate "t0" ⟨Except.ok none, "A", 0, 0⟩ []).1 rfl,
   (process_frame_all_errors_500 svcCreate "t0" ⟨Except.ok none, "A", 0, 0⟩ []).2 _
     ((process_frame_all_errors_500 svcCreate "t0" ⟨Except.ok none, "A", 0, 0⟩ []).1 rfl)⟩

/-- C8: when the frame decodes and the classifier returns a result, the
`/process-frame` response reproduces every field of that result: the
violations list element-wise and in order (type, severity, message, optional
confidence), the five boolean flags, `face_count`, the optional head pose and
the optional evidence snapshot. -/
theorem process_frame_mirrors_classifier :
    ∀ (svc : ProcSvc) (now : String) (req : FrameProcessRequest) (store : SessionStore)
      (f : Frame) (r : ClassifierResult) (store₁ : SessionStore),
      req.frame_decoded = Except.ok (some f) →
      svc f req.session_id req.calibrated_pitch req.calibrated_yaw store =
        (Except.ok r, store₁) →
      ∃ resp, (process_frame svc now req store).1 = Except.ok resp ∧
        resp.face_count = r.face_count ∧
        resp.looking_away = r.looking_away ∧
        resp.multiple_faces = r.multiple_faces ∧
        resp.no_person = r.no_person ∧
        resp.phone_detected = r.phone_detected ∧
        resp.book_detected = r.book_detected ∧
        resp.head_pose = r.head_pose ∧
        resp.snapshot_base64 = r.snapshot_base64 ∧
        resp.violations = r.violations.map mkViolationDetail ∧
        ∀ v : RawViolation,
          (mkViolationDetail v).vtype = v.vtype ∧
          (mkViolationDetail v).severity = v.severity ∧
          (mkViolationDetail v).message = v.message ∧
          (mkViolationDetail v).confidence = v.confidence := by
  intro svc now req store f r store₁ hd hs
  refine ⟨mkFrameProcessResponse now r, ?_, rfl, rfl, rfl, rfl, rfl, rfl, rfl, rfl, rfl,
    fun v => ⟨rfl, rfl, rfl, rfl⟩⟩
  simp [process_frame, process_frame_body, hd, hs]

/-- A sample classifier result with one violation, for concrete runs. -/
def sampleResult : ClassifierResult :=
  { defaultResult with
    violations := [{ vtype := "phone_detected", severity := "high",
                     message := "Phone detected", confidence := some (9 / 10) }]
    phone_detected := true }

/-- Witness for C8 at a concrete classifier result with one violation. -/
theorem process_frame_mirrors_classifier_witness :
    ∃ resp,
      (process_frame (fun _ _ _ _ st => (Except.ok sampleResult, st)) "t0"
          ⟨Except.ok (some 1), "A", 0, 0⟩ []).1 = Except.ok resp ∧
      resp.face_count = sampleResult.face_count ∧
      resp.looking_away = sampleResult.looking_away ∧
      resp.multiple_faces = sampleResult.multiple_faces ∧
      resp.no_person = sampleResult.no_person ∧
      resp.phone_detected = sampleResult.phone_detected ∧
      resp.book_detected = sampleResult.book_detected ∧
      resp.head_pose = sampleResult.head_pose ∧
      resp.snapshot_base64 = sampleResult.snapshot_base64 ∧
      resp.violations = sampleResult.violations.map mkViolationDetail ∧
      ∀ v : RawViolation,
        (mkViolationDetail v).vtype = v.vtype ∧
        (mkViolationDetail v).severity = v.severity ∧
        (mkViolationDetail v).message = v.message ∧
        (mkViolationDetail v).confidence = v.confidence :=
  process_frame_mirrors_classifier (fun _ _ _ _ st => (Except.ok sampleResult, st)) "t0"
    ⟨Except.ok (some 1), "A", 0, 0⟩ [] 1 sampleResult [] rfl rfl

/-- C10: a streaming `frame` message that omits `calibrated_pitch` or
`calibrated_yaw` is handled exactly as if the missing field were `0.0`
(`message.get(..., 0.0)`), and is processed — the proctoring service is
invoked with the default baseline and its result is sent back — rather than
rejected. -/
theorem ws_frame_missing_calibration_defaults :
    ∀ (svc : ProcSvc) (sid : String) (f : Frame) (p y : Rat) (store : SessionStore),
      wsHandleMessage svc sid (WsMessage.frame (some f) none none) store =
        wsHandleMessage svc sid (WsMessage.frame (some f) (some 0) (some 0)) store ∧
      wsHandleMessage svc sid (WsMessage.frame (some f) none (some y)) store =
        wsHandleMessage svc sid (WsMessage.frame (some f) (some 0) (some y)) store ∧
      wsHandleMessage svc sid (WsMessage.frame (some f) (some p) none) store =
        wsHandleMessage svc sid (WsMessage.frame (some f) (some p) (some 0)) store ∧
      ∀ r store₁, svc f sid 0 0 store = (Except.ok r, store₁) →
        wsHandleMessage svc sid (WsMessage.frame (some f) none none) store =
          (Except.ok [WsOut.detection_result r], store₁) := by
  intro svc sid f p y store
  refine ⟨rfl, rfl, rfl, fun r store₁ h => ?_⟩
  simp [wsHandleMessage, h]

/-- Witness for C10: a frame message with both calibration fields missing is
processed against the default (0, 0) baseline and creates the session entry. -/
theorem ws_frame_missing_calibration_defaults_witness :
    wsHandleMessage svcCreate "A" (WsMessage.frame (some 7) none none) [] =
      (Except.ok [WsOut.detection_result defaultResult], [("A", 1)]) :=
  (ws_frame_missing_calibration_defaults svcCreate "A" 7 0 0 []).2.2.2
    defaultResult [("A", 1)] rfl

/-- C1 counterexample: after a session's websocket run completes (transport
disconnect), the session entry created in the session state store by
processing its frame is still present (`lookup "A" = some 1`), while the
connection entry is gone — refuting the claim that the session's state in the
session state store is destroyed on transport-level disconnect. -/
theorem session_state_survives_disconnect_cex :
    ((websocket_proctoring svcCreate "A" [WsMessage.frame (some 7) none none]
        ⟨[], []⟩).2).store.lookup "A" = some 1 ∧
    ((websocket_proctoring svcCreate "A" [WsMessage.frame (some 7) none none]
        ⟨[], []⟩).2).active_connections = [] := by
  decide

/-- C1 (amended): on transport-level disconnect or error, the websocket
handler removes the session only from the `active_connections` map; the
session state store is left exactly as the receive loop left it — session
state created by processing frames survives the disconnect. -/
theorem ws_disconnect_removes_connection_only :
    ∀ (svc : ProcSvc) (sid : String) (msgs : List WsMessage) (s : ServerState),
      sid ∉ s.active_connections →
      (websocket_proctoring svc sid msgs s).2.active_connections = s.active_connections ∧
      (websocket_proctoring svc sid msgs s).2.store = (wsRun svc sid msgs s.store).2 := by
  intro svc sid msgs s h
  simp [websocket_proctoring, h]

/-- Witness for C1's amended theorem at a concrete fresh connection. -/
theorem ws_disconnect_removes_connection_only_witness :
    ("A" ∉ (⟨[], [("B", 2)]⟩ : ServerState).active_connections) ∧
    (websocket_proctoring svcCreate "A" [WsMessage.frame (some 7) none none]
        ⟨[], [("B", 2)]⟩).2.active_connections =
      (⟨[], [("B", 2)]⟩ : ServerState).active_connections ∧
    (websocket_proctoring svcCreate "A" [WsMessage.frame (some 7) none none]
        ⟨[], [("B", 2)]⟩).2.store =
      (wsRun svcCreate "A" [WsMessage.frame (some 7) none none] [("B", 2)]).2 :=
  ⟨by decide,
   (ws_disconnect_removes_connection_only svcCreate "A"
     [WsMessage.frame (some 7) none none] ⟨[], [("B", 2)]⟩ (by decide)).1,
   (ws_disconnect_removes_connection_only svcCreate "A"
     [WsMessage.frame (some 7) none none] ⟨[], [("B", 2)]⟩ (by decide)).2⟩

/-- C2 counterexample: two consecutive audio messages of level 80 — the second
arriving immediately after the first, hence within any positive cooldown
window — each emit an `excessive_noise` event: the audio branch keeps no
last-emitted timestamp and applies no cooldown, refuting the claim. -/
theorem noise_cooldown_cex :
    wsRun svcCreate "A" [WsMessage.audio (some 80), WsMessage.audio (some 80)] [] =
      ([noiseEvent, noiseEvent], []) := by
  decide

/-- C2 (amended): the streaming audio path applies no cooldown: every audio
message whose level exceeds 50 emits an `excessive_noise` event, including a
second above-threshold message arriving immediately after the first, and no
per-session state (which would hold a last-emitted timestamp) is consulted or
updated. -/
theorem audio_no_cooldown_reemits :
    ∀ (svc : ProcSvc) (sid : String) (l₁ l₂ : Rat) (store : SessionStore),
      50 < l₁ → 50 < l₂ →
      wsRun svc sid [WsMessage.audio (some l₁), WsMessage.audio (some l₂)] store =
        ([noiseEvent, noiseEvent], store) := by
  intro svc sid l₁ l₂ store h₁ h₂
  simp [wsRun, wsHandleMessage, h₁, h₂]

/-- Witness for C2's amended theorem at two consecutive level-80 messages. -/
theorem audio_no_cooldown_reemits_witness :
    wsRun svcCreate "B" [WsMessage.audio (some 80), WsMessage.audio (some 80)] [("B", 1)] =
      ([noiseEvent, noiseEvent], [("B", 1)]) :=
  audio_no_cooldown_reemits svcCreate "B" 80 80 [("B", 1)] (by norm_num) (by norm_num)

/-- C4 counterexample: on the streaming path a frame message whose bytes fail
to decode produces no outgoing message at all — the decode failure is silently
skipped, not reported to the caller as a structured error response, refuting
the claim for the streaming path. -/
theorem ws_decode_failure_silent_cex :
    wsHandleMessage svcCreate "A" (WsMessage.frame none none none) [] =
      (Except.ok [], []) := by
  rfl

/-- C4 (amended): a frame whose bytes fail to decode never reaches the
proctoring service, so the session state store is not mutated on either path;
on the request/response path the failure is reported to the caller as an error
response (status 500 after the catch-all rewraps the 400), but on the
streaming path it is silently skipped: no message is sent back. -/
theorem decode_failure_no_mutation :
    (∀ (svc : ProcSvc) (now : String) (req : FrameProcessRequest) (store : SessionStore),
      req.frame_decoded = Except.ok none →
      process_frame svc now req store =
        (Except.error ⟨500, "400: Invalid frame data"⟩, store)) ∧
    (∀ (svc : ProcSvc) (sid : String) (p y : Option Rat) (store : SessionStore),
      wsHandleMessage svc sid (WsMessage.frame none p y) store = (Except.ok [], store)) := by
  constructor
  · intro svc now req store h
    simp [process_frame, process_frame_body, h, pyStr]
    rfl
  · intro svc sid p y store
    rfl

/-- Witness for C4's amended theorem, with a non-empty store left untouched. -/
theorem decode_failure_no_mutation_witness :
    process_frame svcCreate "t1" ⟨Except.ok none, "B", 1, 2⟩ [("B", 3)] =
      (Except.error ⟨500, "400: Invalid frame data"⟩, [("B", 3)]) ∧
    wsHandleMessage svcCreate "B" (WsMessage.frame none (some 1) none) [("B", 3)] =
      (Except.ok [], [("B", 3)]) :=
  ⟨decode_failure_no_mutation.1 svcCreate "t1" ⟨Except.ok none, "B", 1, 2⟩ [("B", 3)] rfl,
   decode_failure_no_mutation.2 svcCreate "B" (some 1) none [("B", 3)]⟩

/-- Looking up a key other than the head's key skips the head entry. -/
theorem lookup_cons_ne (k a : String) (v : Nat) (s : SessionStore) (h : k ≠ a) :
    ((a, v) :: s).lookup k = s.lookup k := by
  simp [List.lookup_cons, beq_eq_false_iff_ne.mpr h]

/-- Per-session locality of the proctoring service, per §3 of the spec: a
session's entry in the store is mutated only by frames for that id, and
processing a frame for an id depends only on that id's entry. -/
def svcLocal (svc : ProcSvc) : Prop :=
  (∀ (f : Frame) (sid : String) (p y : Rat) (s₁ s₂ : SessionStore),
    s₁.lookup sid = s₂.lookup sid →
    (svc f sid p y s₁).1 = (svc f sid p y s₂).1 ∧
    ((svc f sid p y s₁).2).lookup sid = ((svc f sid p y s₂).2).lookup sid) ∧
  (∀ (f : Frame) (sid : String) (p y : Rat) (s : SessionStore) (k : String),
    k ≠ sid → ((svc f sid p y s).2).lookup k = s.lookup k)

/-- The sample service touches only its own session's entry. -/
theorem svcCreate_local : svcLocal svcCreate := by
  constructor
  · intro f sid p y s₁ s₂ h
    refine ⟨rfl, ?_⟩
    simp [svcCreate, List.lookup_cons, h]
  · intro f sid p y s k hk
    exact lookup_cons_ne k sid _ s hk

/-- Handling one message leaves every other session's store entry unchanged. -/
theorem wsHandleMessage_lookup_other (svc : ProcSvc) (hl : svcLocal svc) (sid : String)
    (msg : WsMessage) (store : SessionStore) (k : String) (hk : k ≠ sid) :
    ((wsHandleMessage svc sid msg store).2).lookup k = store.lookup k := by
  cases msg with
  | malformed e => rfl
  | ping => rfl
  | audio lvl =>
    simp only [wsHandleMessage]
    split <;> rfl
  | frame fd p y =>
    cases fd with
    | none => rfl
    | some f =>
      have hsvc := hl.2 f sid (p.getD 0) (y.getD 0) store k hk
      simp only [wsHandleMessage]
      rcases h : svc f sid (p.getD 0) (y.getD 0) store with ⟨r, store₁⟩
      rw [h] at hsvc
      cases r <;> exact hsvc

/-- A whole receive loop leaves every other session's store entry unchanged. -/
theorem wsRun_lookup_other (svc : ProcSvc) (hl : svcLocal svc) (sid : String)
    (msgs : List WsMessage) (store : SessionStore) (k : String) (hk : k ≠ sid) :
    ((wsRun svc sid msgs store).2).lookup k = store.lookup k := by
  induction msgs generalizing store with
  | nil => rfl
  | cons m rest ih =>
    have hm := wsHandleMessage_lookup_other svc hl sid m store k hk
    simp only [wsRun]
    rcases h : wsHandleMessage svc sid m store with ⟨res, store₁⟩
    rw [h] at hm
    cases res with
    | error e => exact hm
    | ok outs =>
      show ((wsRun svc sid rest store₁).2).lookup k = store.lookup k
      exact (ih store₁).trans hm

/-- Handling one message depends, through the store, only on the session's own
entry: equal own entries give equal outputs and equal resulting own entries. -/
theorem wsHandleMessage_own_key (svc : ProcSvc) (hl : svcLocal svc) (sid : String)
    (msg : WsMessage) (s₁ s₂ : SessionStore) (h : s₁.lookup sid = s₂.lookup sid) :
    (wsHandleMessage svc sid msg s₁).1 = (wsHandleMessage svc sid msg s₂).1 ∧
    ((wsHandleMessage svc sid msg s₁).2).lookup sid =
      ((wsHandleMessage svc sid msg s₂).2).lookup sid := by
  cases msg with
  | malformed e => exact ⟨rfl, h⟩
  | ping => exact ⟨rfl, h⟩
  | audio lvl =>
    simp only [wsHandleMessage]
    split <;> exact ⟨rfl, h⟩
  | frame fd p y =>
    cases fd with
    | none => exact ⟨rfl, h⟩
    | some f =>
      obtain ⟨h1, h2⟩ := hl.1 f sid (p.getD 0) (y.getD 0) s₁ s₂ h
      simp only [wsHandleMessage]
      rcases e₁ : svc f sid (p.getD 0) (y.getD 0) s₁ with ⟨r₁, t₁⟩
      rcases e₂ : svc f sid (p.getD 0) (y.getD 0) s₂ with ⟨r₂, t₂⟩
      rw [e₁, e₂] at h1 h2
      simp only at h1 h2
      subst h1
      cases r₁ <;> exact ⟨rfl, h2⟩

/-- A whole receive loop depends, through the store, only on the session's own
entry: equal own entries give the same sent messages. -/
theorem wsRun_own_key (svc : ProcSvc) (hl : svcLocal svc) (sid : String)
    (msgs : List WsMessage) :
    ∀ s₁ s₂ : SessionStore, s₁.lookup sid = s₂.lookup sid →
      (wsRun svc sid msgs s₁).1 = (wsRun svc sid msgs s₂).1 ∧
      ((wsRun svc sid msgs s₁).2).lookup sid = ((wsRun svc sid msgs s₂).2).lookup sid := by
  induction msgs with
  | nil => exact fun s₁ s₂ h => ⟨rfl, h⟩
  | cons m rest ih =>
    intro s₁ s₂ h
    obtain ⟨hm1, hm2⟩ := wsHandleMessage_own_key svc hl sid m s₁ s₂ h
    simp only [wsRun]
    rcases e₁ : wsHandleMessage svc sid m s₁ with ⟨res₁, t₁⟩
    rcases e₂ : wsHandleMessage svc sid m s₂ with ⟨res₂, t₂⟩
    rw [e₁, e₂] at hm1 hm2
    simp only at hm1 hm2
    subst hm1
    cases res₁ with
    | error e => exact ⟨rfl, hm2⟩
    | ok outs =>
      obtain ⟨ih1, ih2⟩ := ih t₁ t₂ hm2
      refine ⟨?_, ?_⟩
      · show outs ++ (wsRun svc sid rest t₁).1 = outs ++ (wsRun svc sid rest t₂).1
        rw [ih1]
      · show ((wsRun svc sid rest t₁).2).lookup sid = ((wsRun svc sid rest t₂).2).lookup sid
        exact ih2

/-- The single `try/except` of `websocket_proctoring` wraps the whole
`while True:` loop, so the first exception ends the run: the messages after it
are never processed, and the sent messages are exactly those of the clean
prefix. -/
theorem wsRun_stops_at_error (svc : ProcSvc) (sid : String) (m : WsMessage)
    (post : List WsMessage) :
    ∀ (pre : List WsMessage) (store : SessionStore) (e : PyExc),
      wsRunOk svc sid pre store = true →
      (wsHandleMessage svc sid m (wsRun svc sid pre store).2).1 = Except.error e →
      wsRun svc sid (pre ++ m :: post) store =
        ((wsRun svc sid pre store).1,
          (wsHandleMessage svc sid m (wsRun svc sid pre store).2).2) := by
  intro pre
  induction pre with
  | nil =>
    intro store e hok herr
    have herr₁ : (wsHandleMessage svc sid m store).1 = Except.error e := herr
    show wsRun svc sid (m :: post) store = ([], (wsHandleMessage svc sid m store).2)
    rcases h : wsHandleMessage svc sid m store with ⟨res, store₁⟩
    rw [h] at herr₁
    simp only at herr₁
    subst herr₁
    simp [wsRun, h]
  | cons m' pre' ih =>
    intro store e hok herr
    rcases h : wsHandleMessage svc sid m' store with ⟨res, store₁⟩
    cases res with
    | error e' =>
      have hok₂ : (match wsHandleMessage svc sid m' store with
          | (Except.error _, _) => false
          | (Except.ok _, s₁) => wsRunOk svc sid pre' s₁) = true := hok
      rw [h] at hok₂
      simp at hok₂
    | ok outs =>
      have hok₂ : (match wsHandleMessage svc sid m' store with
          | (Except.error _, _) => false
          | (Except.ok _, s₁) => wsRunOk svc sid pre' s₁) = true := hok
      rw [h] at hok₂
      have hok₁ : wsRunOk svc sid pre' store₁ = true := hok₂
      have hrun : wsRun svc sid (m' :: pre') store =
          (outs ++ (wsRun svc sid pre' store₁).1, (wsRun svc sid pre' store₁).2) := by
        simp [wsRun, h]
      have herr₁ : (wsHandleMessage svc sid m (wsRun svc sid pre' store₁).2).1 =
          Except.error e := by
        rw [hrun] at herr
        exact herr
      have hrec := ih store₁ e hok₁ herr₁
      have hstep : wsRun svc sid ((m' :: pre') ++ m :: post) store =
          (outs ++ (wsRun svc sid (pre' ++ m :: post) store₁).1,
            (wsRun svc sid (pre' ++ m :: post) store₁).2) := by
        simp [wsRun, h]
      rw [hstep, hrec, hrun]

/-- C3 counterexample: in a session whose second message raises an exception,
the subsequent frame message is never processed — the run produces no output
for it and creates no session entry — refuting the claim that processing of
the same session continues after an exception. -/
theorem frame_exception_stops_session_cex :
    wsRun svcCreate "A"
      [WsMessage.malformed (PyExc.other "boom"), WsMessage.frame (some 7) none none] [] =
      ([], []) := by
  decide

/-- C3 (amended): an exception raised while processing one message terminates
that session's streaming loop — the messages after it are not processed and
the outputs are exactly those of the clean prefix — while, for a service that
touches only its own session's entry, any other session's processing is
unaffected: its run over the store left by the aborted session sends the same
messages as over the original store. -/
theorem frame_exception_stops_session_loop :
    ∀ (svc : ProcSvc) (sid : String) (pre : List WsMessage) (m : WsMessage)
      (post : List WsMessage) (store : SessionStore) (e : PyExc),
      wsRunOk svc sid pre store = true →
      (wsHandleMessage svc sid m (wsRun svc sid pre store).2).1 = Except.error e →
      wsRun svc sid (pre ++ m :: post) store =
        ((wsRun svc sid pre store).1,
          (wsHandleMessage svc sid m (wsRun svc sid pre store).2).2) ∧
      (svcLocal svc → ∀ (sid₂ : String) (msgs₂ : List WsMessage), sid₂ ≠ sid →
        (wsRun svc sid₂ msgs₂ (wsRun svc sid (pre ++ m :: post) store).2).1 =
          (wsRun svc sid₂ msgs₂ store).1) := by
  intro svc sid pre m post store e hok herr
  refine ⟨wsRun_stops_at_error svc sid m post pre store e hok herr, ?_⟩
  intro hloc sid₂ msgs₂ hne
  have hb : ((wsRun svc sid (pre ++ m :: post) store).2).lookup sid₂ = store.lookup sid₂ :=
    wsRun_lookup_other svc hloc sid (pre ++ m :: post) store sid₂ hne
  exact (wsRun_own_key svc hloc sid₂ msgs₂ _ store hb).1

/-- Witness for C3's amended theorem: session "A"'s run aborts at its second
message, and session "B"'s subsequent run is unaffected. -/
theorem frame_exception_stops_session_loop_witness :
    wsRunOk svcCreate "A" [WsMessage.ping] [] = true ∧
    (wsHandleMessage svcCreate "A" (WsMessage.malformed (PyExc.other "boom"))
        (wsRun svcCreate "A" [WsMessage.ping] []).2).1 =
      Except.error (PyExc.other "boom") ∧
    wsRun svcCreate "A"
        ([WsMessage.ping] ++ WsMessage.malformed (PyExc.other "boom") ::
          [WsMessage.frame (some 7) none none]) [] =
      ((wsRun svcCreate "A" [WsMessage.ping] []).1,
        (wsHandleMessage svcCreate "A" (WsMessage.malformed (PyExc.other "boom"))
          (wsRun svcCreate "A" [WsMessage.ping] []).2).2) ∧
    (wsRun svcCreate "B" [WsMessage.frame (some 5) none none]
        (wsRun svcCreate "A"
          ([WsMessage.ping] ++ WsMessage.malformed (PyExc.other "boom") ::
            [WsMessage.frame (some 7) none none]) []).2).1 =
      (wsRun svcCreate "B" [WsMessage.frame (some 5) none none] []).1 :=
  ⟨rfl, rfl,
   (frame_exception_stops_session_loop svcCreate "A" [WsMessage.ping]
      (WsMessage.malformed (PyExc.other "boom")) [WsMessage.frame (some 7) none none] []
      (PyExc.other "boom") rfl rfl).1,
   (frame_exception_stops_session_loop svcCreate "A" [WsMessage.ping]
      (WsMessage.malformed (PyExc.other "boom")) [WsMessage.frame (some 7) none none] []
      (PyExc.other "boom") rfl rfl).2 svcCreate_local "B"
      [WsMessage.frame (some 5) none none] (by decide)⟩
